import Mathlib

namespace CitizenAI

/-! Shallow embedding of src/app.py (CitizenAI): model initialization,
response generation, and sentiment analysis. Text is modelled as a list of
characters; the fallible collaborator calls (torch.cuda.is_available,
AutoTokenizer.from_pretrained, AutoModelForCausalLM.from_pretrained,
model.to, tokenizer, model.generate, tokenizer.decode) are modelled by an
environment of Except-valued outcomes, where Except.error stands for the
call raising a Python exception. -/

/-- Python str.lower on an ASCII letter, applied characterwise. -/
def lowerChar (c : Char) : Char :=
  if 65 ≤ c.toNat ∧ c.toNat ≤ 90 then Char.ofNat (c.toNat + 32) else c

/-- Lower-casing of a text, modelling text.lower() on line 111 of src/app.py. -/
def pyLower (t : List Char) : List Char := t.map lowerChar

/-- Positive keyword list of analyze_sentiment, src/app.py lines 113-115. -/
def positive_words : List (List Char) :=
  ["good", "great", "excellent", "amazing", "wonderful", "fantastic",
   "perfect", "outstanding", "brilliant", "superb", "satisfied",
   "happy", "pleased", "impressed", "helpful", "efficient"].map String.toList

/-- Negative keyword list of analyze_sentiment, src/app.py lines 116-118. -/
def negative_words : List (List Char) :=
  ["bad", "terrible", "awful", "horrible", "disappointing",
   "frustrated", "angry", "upset", "poor", "inadequate", "useless",
   "slow", "delayed", "problem", "issue", "complaint"].map String.toList

/-- analyze_sentiment, src/app.py lines 109-128: lower-case the input, give
one point per listed keyword occurring as a substring (Python in-operator)
of the lowered text, and compare the two scores. -/
def analyze_sentiment (text : List Char) : String :=
  let text_lower := pyLower text
  let positive_score := positive_words.countP (fun word => decide (word <:+: text_lower))
  let negative_score := negative_words.countP (fun word => decide (word <:+: text_lower))
  if positive_score > negative_score then "Positive"
  else if negative_score > positive_score then "Negative"
  else "Neutral"

/-- The device strings computed on line 27 of src/app.py. -/
inductive PyDevice
  | cuda
  | cpu
deriving DecidableEq

/-- Identifies which model path a loaded handle came from: the primary
(ibm-granite) path or the fallback (DialoGPT) path. -/
inductive ModelOrigin
  | preferred
  | fallback
deriving DecidableEq

/-- The process-wide globals tokenizer, model, device of src/app.py lines
13-15, each None until assigned. -/
structure GlobalState where
  tokenizer : Option ModelOrigin
  model : Option ModelOrigin
  device : Option PyDevice
deriving DecidableEq

/-- Initial value of the globals, src/app.py lines 13-15. -/
def initialGlobals : GlobalState := ⟨none, none, none⟩

/-- Outcomes of the collaborator calls made by initialize_model; Except.error
models the call raising. cudaAvail is torch.cuda.is_available (line 27);
prefTok, prefModel, prefTo are the primary-path loads (lines 32-51); fbTok,
fbModel, fbTo are the fallback-path loads (lines 61-63). -/
structure InitEnv where
  cudaAvail : Except Unit Bool
  prefTok : Except Unit Unit
  prefModel : Except Unit Unit
  prefTo : Except Unit Unit
  fbTok : Except Unit Unit
  fbModel : Except Unit Unit
  fbTo : Except Unit Unit

/-- Result of one run of initialize_model: its outcome (Except.error when an
exception escapes the function), the globals afterwards, and how many times
control entered the fallback acquisition block. -/
structure InitResult where
  outcome : Except Unit Bool
  state : GlobalState
  fallbackAttempts : Nat

/-- Fallback branch of initialize_model, src/app.py lines 60-69: load the
fallback tokenizer, then the fallback model, then move it to the device;
any failure is caught and False is returned; assignments made before the
failing step persist in the globals. -/
def fallback_load (env : InitEnv) (s : GlobalState) : InitResult :=
  match env.fbTok with
  | .error _ => ⟨.ok false, s, 1⟩
  | .ok _ =>
    let s1 := { s with tokenizer := some ModelOrigin.fallback }
    match env.fbModel with
    | .error _ => ⟨.ok false, s1, 1⟩
    | .ok _ =>
      let s2 := { s1 with model := some ModelOrigin.fallback }
      match env.fbTo with
      | .error _ => ⟨.ok false, s2, 1⟩
      | .ok _ => ⟨.ok true, s2, 1⟩

/-- initialize_model, src/app.py lines 22-69. The cuda availability query on
line 27 runs outside every try block, so its failure propagates out of the
function with the globals unchanged. Inside the try, the primary tokenizer
and model are loaded (with a model.to step only on the cpu path; the cuda
path loads with device_map directly); any failure there is caught and the
fallback branch runs. -/
def initialize_model (env : InitEnv) (s : GlobalState) : InitResult :=
  match env.cudaAvail with
  | .error _ => ⟨.error (), s, 0⟩
  | .ok cudaIsAvailable =>
    let dev := if cudaIsAvailable then PyDevice.cuda else PyDevice.cpu
    let s0 := { s with device := some dev }
    match env.prefTok with
    | .error _ => fallback_load env s0
    | .ok _ =>
      let s1 := { s0 with tokenizer := some ModelOrigin.preferred }
      match dev with
      | PyDevice.cuda =>
        match env.prefModel with
        | .error _ => fallback_load env s1
        | .ok _ => ⟨.ok true, { s1 with model := some ModelOrigin.preferred }, 0⟩
      | PyDevice.cpu =>
        match env.prefModel with
        | .error _ => fallback_load env s1
        | .ok _ =>
          let s2 := { s1 with model := some ModelOrigin.preferred }
          match env.prefTo with
          | .error _ => fallback_load env s2
          | .ok _ => ⟨.ok true, s2, 0⟩

/-- The __main__ startup block, src/app.py lines 242-248: initialize_model is
called inside a try; an escaping exception is caught and the process
continues with whatever globals were left. Total by construction: startup
never crashes the process. -/
def main_startup (env : InitEnv) (s : GlobalState) : GlobalState :=
  let r := initialize_model env s
  match r.outcome with
  | .error _ => r.state
  | .ok _ => r.state

/-- Whitespace characters removed by Python str.strip (ASCII range). -/
def isPySpace (c : Char) : Bool :=
  c = ' ' || c = '\t' || c = '\n' || c = '\r' || c = '\x0b' || c = '\x0c'

/-- Python str.strip: remove leading and trailing whitespace. -/
def pyStrip (s : List Char) : List Char :=
  ((s.dropWhile isPySpace).reverse.dropWhile isPySpace).reverse

/-- Python str.split with a separator, on character lists: scan left to
right; each occurrence of the nonempty separator ends the current piece and
the scan resumes after it. (Python raises on an empty separator; the guard
sep nonempty mirrors that precondition and every use here passes a
nonempty separator.) -/
def splitOnCL (sep : List Char) : List Char → List (List Char)
  | [] => [[]]
  | c :: cs =>
    if sep ≠ [] ∧ sep <+: (c :: cs) then
      [] :: splitOnCL sep (cs.drop (sep.length - 1))
    else
      match splitOnCL sep cs with
      | [] => [[c]]
      | piece :: rest => (c :: piece) :: rest
termination_by s => s.length
decreasing_by
  · simp only [List.length_drop, List.length_cons]
    omega
  · simp

/-- The literal marker searched for on line 100 of src/app.py. -/
def answerMarker : List Char := "Answer:".toList

/-- Post-processing of the decoded text, src/app.py lines 100-103: if the
marker occurs, keep the last piece of the split (the text after the last
occurrence) and strip it; otherwise keep the text unchanged. -/
def extract_answer (response : List Char) : List Char :=
  if answerMarker <:+: response then
    pyStrip ((splitOnCL answerMarker response).getLastD [])
  else response

/-- The instructional template wrapped around the question, src/app.py lines
79-84 (the f-string of generate_response, with its literal indentation). -/
def build_prompt (question : List Char) : List Char :=
  ("You are a helpful AI assistant for a government citizen engagement platform. \n        Provide clear, accurate, and helpful information about government services, policies, and civic processes.\n\n        Question: ").toList
    ++ question ++ ("\n\n        Answer:").toList

/-- The tokenizer and model operations generate_response can perform, in
source order: tokenizer call (line 86), inputs.to(device) (line 87),
model.generate (lines 90-97), tokenizer.decode (line 99). -/
inductive GenOp
  | tokenize
  | toDevice
  | generate
  | decode
deriving DecidableEq

/-- Outcomes of the collaborator calls of generate_response; the tokenizer
call receives the constructed prompt, decode yields the decoded text. -/
structure GenEnv where
  tokenize : List Char → Except Unit Unit
  toDevice : Except Unit Unit
  generate : Except Unit Unit
  decode : Except Unit (List Char)

/-- Body of the try block of generate_response, src/app.py lines 78-103:
build the prompt, tokenize, move to device, generate, decode, extract the
answer. Returns the raised-or-returned outcome together with the list of
tokenizer/model operations actually performed. -/
def gen_try (env : GenEnv) (question : List Char) : Except Unit (List Char) × List GenOp :=
  let prompt := build_prompt question
  match env.tokenize prompt with
  | .error _ => (.error (), [GenOp.tokenize])
  | .ok _ =>
    match env.toDevice with
    | .error _ => (.error (), [GenOp.tokenize, GenOp.toDevice])
    | .ok _ =>
      match env.generate with
      | .error _ => (.error (), [GenOp.tokenize, GenOp.toDevice, GenOp.generate])
      | .ok _ =>
        match env.decode with
        | .error _ =>
          (.error (), [GenOp.tokenize, GenOp.toDevice, GenOp.generate, GenOp.decode])
        | .ok response =>
          (.ok (extract_answer response),
           [GenOp.tokenize, GenOp.toDevice, GenOp.generate, GenOp.decode])

/-- The not-ready placeholder, src/app.py line 76. -/
def notReadyMsg : List Char :=
  "I\x27m currently setting up my AI capabilities. Please try again in a moment.".toList

/-- The technical-difficulties placeholder, src/app.py line 107. -/
def techDifficultiesMsg : List Char :=
  "I\u2019m having technical difficulties right now. Please try again later.".toList

/-- generate_response, src/app.py lines 71-107: if the model or tokenizer
global is None, return the not-ready placeholder without touching either;
otherwise run the try body, and on any exception return the
technical-difficulties placeholder. Total by construction: no exception
escapes to the caller. -/
def generate_response (env : GenEnv) (s : GlobalState) (question : List Char) :
    List Char × List GenOp :=
  if s.model = none ∨ s.tokenizer = none then (notReadyMsg, [])
  else
    match gen_try env question with
    | (.ok r, ops) => (r, ops)
    | (.error _, ops) => (techDifficultiesMsg, ops)

/-! Helper lemmas. -/

/-- Every outcome of a fallible Unit-valued collaborator call is a plain
success or a raised exception. -/
theorem exceptUU (e : Except Unit Unit) : e = Except.ok () ∨ e = Except.error () := by
  cases e with
  | error u => cases u; exact Or.inr rfl
  | ok u => cases u; exact Or.inl rfl

/-- Every outcome of the availability query is true, false, or a raise. -/
theorem exceptUB (e : Except Unit Bool) :
    e = Except.ok true ∨ e = Except.ok false ∨ e = Except.error () := by
  cases e with
  | error u => cases u; exact Or.inr (Or.inr rfl)
  | ok b => cases b with
    | true => exact Or.inl rfl
    | false => exact Or.inr (Or.inl rfl)

/-! Claims C5 and C10: the sentiment classifier. -/

/-- Claim C5: analyze_sentiment lower-cases its input and compares the number
of positive-list terms occurring as substrings of the lowered text with the
number of negative-list terms; the result is Positive exactly when the
positive count is strictly greater, Negative exactly when the negative count
is strictly greater, and Neutral exactly when the counts are equal; it is
total on arbitrary input. -/
theorem analyze_sentiment_spec (text : List Char) :
    (analyze_sentiment text = "Positive" ↔
      negative_words.countP (fun word => decide (word <:+: pyLower text)) <
        positive_words.countP (fun word => decide (word <:+: pyLower text))) ∧
    (analyze_sentiment text = "Negative" ↔
      positive_words.countP (fun word => decide (word <:+: pyLower text)) <
        negative_words.countP (fun word => decide (word <:+: pyLower text))) ∧
    (analyze_sentiment text = "Neutral" ↔
      positive_words.countP (fun word => decide (word <:+: pyLower text)) =
        negative_words.countP (fun word => decide (word <:+: pyLower text))) := by
  simp only [analyze_sentiment]
  split_ifs with h1 h2
  · exact ⟨⟨fun _ => h1, fun _ => rfl⟩,
      ⟨fun he => absurd he (by decide), fun hlt => absurd hlt (by omega)⟩,
      ⟨fun he => absurd he (by decide), fun heq => absurd heq (by omega)⟩⟩
  · exact ⟨⟨fun he => absurd he (by decide), fun hlt => absurd hlt (by omega)⟩,
      ⟨fun _ => h2, fun _ => rfl⟩,
      ⟨fun he => absurd he (by decide), fun heq => absurd heq (by omega)⟩⟩
  · exact ⟨⟨fun he => absurd he (by decide), fun hlt => absurd hlt (by omega)⟩,
      ⟨fun he => absurd he (by decide), fun hlt => absurd hlt (by omega)⟩,
      ⟨fun _ => by omega, fun _ => rfl⟩⟩

/-- Claim C5 witness: the empty string has equal (zero) counts and is
classified Neutral. -/
theorem analyze_sentiment_spec_witness : analyze_sentiment ([] : List Char) = "Neutral" :=
  (analyze_sentiment_spec []).2.2.mpr (by decide)

/-- Claim C10: the two keyword lists are duplicate-free, each keyword
contributes at most one point, and the sentiment result depends only on
which keywords occur as substrings of the lowered text, never on how often;
two texts in which exactly the same keywords occur get the same scores and
the same classification. -/
theorem analyze_sentiment_multiplicity_blind :
    positive_words.Nodup ∧ negative_words.Nodup ∧
    ∀ t1 t2 : List Char,
      (∀ w ∈ positive_words, (w <:+: pyLower t1 ↔ w <:+: pyLower t2)) →
      (∀ w ∈ negative_words, (w <:+: pyLower t1 ↔ w <:+: pyLower t2)) →
      (positive_words.countP (fun word => decide (word <:+: pyLower t1)) =
        positive_words.countP (fun word => decide (word <:+: pyLower t2))) ∧
      (negative_words.countP (fun word => decide (word <:+: pyLower t1)) =
        negative_words.countP (fun word => decide (word <:+: pyLower t2))) ∧
      analyze_sentiment t1 = analyze_sentiment t2 := by
  refine ⟨by decide, by decide, ?_⟩
  intro t1 t2 hp hn
  have hcp : positive_words.countP (fun word => decide (word <:+: pyLower t1)) =
      positive_words.countP (fun word => decide (word <:+: pyLower t2)) :=
    List.countP_congr (fun w hw => by rw [decide_eq_decide.mpr (hp w hw)])
  have hcn : negative_words.countP (fun word => decide (word <:+: pyLower t1)) =
      negative_words.countP (fun word => decide (word <:+: pyLower t2)) :=
    List.countP_congr (fun w hw => by rw [decide_eq_decide.mpr (hn w hw)])
  refine ⟨hcp, hcn, ?_⟩
  simp only [analyze_sentiment]
  rw [hcp, hcn]

/-- Claim C10 witness: repeating the keyword good three times gives the same
classification as writing it once. -/
theorem analyze_sentiment_multiplicity_blind_witness :
    analyze_sentiment ("good good good".toList) = analyze_sentiment ("good".toList) :=
  (analyze_sentiment_multiplicity_blind.2.2 _ _ (by decide) (by decide)).2.2

/-! Claims C1, C6, C9: the generation engine. Concrete environments and
states used by the witnesses. -/

/-- A generation environment in which every collaborator call succeeds and
decoding yields a fixed text. -/
def genEnvAllOk : GenEnv :=
  ⟨fun _ => Except.ok (), Except.ok (), Except.ok (), Except.ok ("hello".toList)⟩

/-- A generation environment in which decoding raises. -/
def genEnvDecodeFail : GenEnv :=
  ⟨fun _ => Except.ok (), Except.ok (), Except.ok (), Except.error ()⟩

/-- A fully loaded global state (fallback pair on cpu). -/
def loadedGlobals : GlobalState :=
  ⟨some ModelOrigin.fallback, some ModelOrigin.fallback, some PyDevice.cpu⟩

/-- A partially initialized global state: the tokenizer was assigned by a
failed initialization but the model was not. -/
def partialGlobals : GlobalState :=
  ⟨some ModelOrigin.preferred, none, some PyDevice.cpu⟩

/-- Claim C1: with a loaded tokenizer/model pair, generate_response returns a
plain string for every simulated outcome of the internal steps and never
lets an exception reach its caller: whenever the try body raises it returns
the fixed technical-difficulties placeholder, and whenever the try body
completes it returns the computed text. -/
theorem generate_response_never_raises (env : GenEnv) (s : GlobalState)
    (question : List Char) (hm : s.model ≠ none) (ht : s.tokenizer ≠ none) :
    ((gen_try env question).1.isOk = false →
      generate_response env s question = (techDifficultiesMsg, (gen_try env question).2)) ∧
    (∀ r, (gen_try env question).1 = Except.ok r →
      generate_response env s question = (r, (gen_try env question).2)) := by
  have hguard : ¬ (s.model = none ∨ s.tokenizer = none) := by
    intro h
    rcases h with h | h
    · exact hm h
    · exact ht h
  unfold generate_response
  rw [if_neg hguard]
  rcases hgen : gen_try env question with ⟨out, ops⟩
  cases out with
  | error e => exact ⟨fun _ => rfl, fun r hr => by simp at hr⟩
  | ok r0 =>
    refine ⟨fun hf => ?_, fun r hr => by cases hr; rfl⟩
    simp [Except.isOk, Except.toBool] at hf

/-- Claim C1 witness: with the loaded pair and a decoding failure the call
returns the technical-difficulties placeholder after performing all four
steps. -/
theorem generate_response_never_raises_witness :
    generate_response genEnvDecodeFail loadedGlobals ("What are the office hours?".toList) =
      (techDifficultiesMsg, [GenOp.tokenize, GenOp.toDevice, GenOp.generate, GenOp.decode]) := by
  have h := generate_response_never_raises genEnvDecodeFail loadedGlobals
    ("What are the office hours?".toList) (by decide) (by decide)
  exact (h.1 rfl).trans rfl

/-- Claim C6: in the Absent state (no tokenizer and no model loaded),
generate_response returns the one fixed not-ready placeholder for every
question, including the empty one, for every environment and device value,
performing no operation and signalling no error. -/
theorem generate_response_absent_placeholder (env : GenEnv) (dev : Option PyDevice)
    (question : List Char) :
    generate_response env ⟨none, none, dev⟩ question = (notReadyMsg, []) := by
  unfold generate_response
  rw [if_pos (Or.inl rfl)]

/-- Claim C9: whenever the model global or the tokenizer global is unset,
including the partially initialized states, generate_response returns the
not-ready placeholder and performs no tokenizer or model operation. -/
theorem generate_response_guard_no_ops (env : GenEnv) (s : GlobalState)
    (question : List Char) (h : s.model = none ∨ s.tokenizer = none) :
    generate_response env s question = (notReadyMsg, []) := by
  unfold generate_response
  rw [if_pos h]

/-- Claim C9 witness: in the state where only the tokenizer was assigned by a
failed initialization, the call returns the placeholder with an empty
operation trace. -/
theorem generate_response_guard_no_ops_witness :
    generate_response genEnvAllOk partialGlobals ("hi".toList) = (notReadyMsg, []) :=
  generate_response_guard_no_ops genEnvAllOk partialGlobals ("hi".toList) (Or.inl rfl)

/-! Claim C7: answer extraction. The lemmas below characterise the last piece
of the Python-style split. -/

/-- Unfolding equation of splitOnCL on the empty list. -/
theorem splitOnCL_nil (sep : List Char) : splitOnCL sep [] = [[]] := by
  rw [splitOnCL]

/-- Unfolding equation of splitOnCL on a nonempty list. -/
theorem splitOnCL_cons (sep : List Char) (c : Char) (cs : List Char) :
    splitOnCL sep (c :: cs) =
      if sep ≠ [] ∧ sep <+: (c :: cs) then
        [] :: splitOnCL sep (cs.drop (sep.length - 1))
      else
        match splitOnCL sep cs with
        | [] => [[c]]
        | piece :: rest => (c :: piece) :: rest := by
  rw [splitOnCL]

/-- The split always has at least one piece. -/
theorem splitOnCL_ne_nil (sep s : List Char) : splitOnCL sep s ≠ [] := by
  cases s with
  | nil => rw [splitOnCL_nil]; simp
  | cons c cs =>
    rw [splitOnCL_cons]
    split_ifs with h
    · simp
    · rcases hs : splitOnCL sep cs with _ | ⟨p, rest⟩ <;> simp

/-- A text not containing the separator splits into the single piece that is
the text itself. -/
theorem splitOnCL_single {sep : List Char} (_hsep : sep ≠ []) :
    ∀ s : List Char, ¬ sep <:+: s → splitOnCL sep s = [s] := by
  intro s
  induction s with
  | nil => intro _; rw [splitOnCL_nil]
  | cons c cs ih =>
    intro h
    have hnp : ¬ (sep ≠ [] ∧ sep <+: (c :: cs)) := by
      rintro ⟨-, hpref⟩
      have hinf := List.IsPrefix.isInfix hpref
      exact h hinf
    have hcs : ¬ sep <:+: cs := by
      intro hi
      obtain ⟨pre, post, hpp⟩ := hi
      refine h ⟨c :: pre, post, ?_⟩
      rw [← hpp]
      simp
    rw [splitOnCL_cons, if_neg hnp, ih hcs]

/-- A text containing the separator splits into at least two pieces. -/
theorem splitOnCL_two_le {sep : List Char} (hsep : sep ≠ []) :
    ∀ s : List Char, sep <:+: s → 2 ≤ (splitOnCL sep s).length := by
  intro s
  induction s with
  | nil =>
    intro h
    obtain rfl := List.eq_nil_of_infix_nil h
    exact absurd rfl hsep
  | cons c cs ih =>
    intro h
    rw [splitOnCL_cons]
    split_ifs with hcond
    · have hpos := List.length_pos.mpr (splitOnCL_ne_nil sep (cs.drop (sep.length - 1)))
      simp only [List.length_cons]
      omega
    · have hpref : ¬ sep <+: (c :: cs) := fun hpp => hcond ⟨hsep, hpp⟩
      have hcs : sep <:+: cs := by
        obtain ⟨pre, post, hs⟩ := h
        cases pre with
        | nil =>
          refine absurd ⟨post, ?_⟩ hpref
          simpa using hs
        | cons d pre2 =>
          rw [List.cons_append, List.cons_append] at hs
          injection hs with _ h2
          exact ⟨pre2, post, h2⟩
      have h2 := ih hcs
      rcases hsp : splitOnCL sep cs with _ | ⟨p, rest⟩
      · exact absurd hsp (splitOnCL_ne_nil sep cs)
      · rw [hsp] at h2
        simp only [List.length_cons] at h2 ⊢
        omega

/-- Splitting a text that starts with the separator drops the separator and
prepends an empty piece. -/
theorem splitOnCL_prefix_step {sep : List Char} (hsep : sep ≠ []) (s : List Char)
    (hp : sep <+: s) : splitOnCL sep s = [] :: splitOnCL sep (s.drop sep.length) := by
  cases s with
  | nil =>
    obtain rfl := List.eq_nil_of_prefix_nil hp
    exact absurd rfl hsep
  | cons c cs =>
    rw [splitOnCL_cons, if_pos ⟨hsep, hp⟩]
    obtain ⟨k, hk⟩ : ∃ k, sep.length = k + 1 := by
      cases sep with
      | nil => exact absurd rfl hsep
      | cons a l => exact ⟨l.length, rfl⟩
    rw [hk]
    simp [List.drop_succ_cons]

/-- The marker Answer: has no nontrivial border: no proper nonempty suffix-by
-position of it is one of its prefixes, so occurrences cannot overlap. -/
theorem answerMarker_borderfree :
    ∀ k, k < answerMarker.length → 0 < k → ¬ (answerMarker.drop k <+: answerMarker) := by
  decide

/-- getLastD of a nonempty list ignores the default. -/
theorem getLastD_irrel {α : Type} {l : List α} (h : l ≠ []) (a b : α) :
    l.getLastD a = l.getLastD b := by
  cases l with
  | nil => exact absurd rfl h
  | cons x xs => rw [List.getLastD_cons, List.getLastD_cons]

/-- The last piece of the split of u ++ Answer: ++ t is exactly t whenever t
itself contains no further marker; fuel induction on the length. -/
theorem splitOnCL_getLastD_after_last :
    ∀ (n : Nat) (u t : List Char), (u ++ answerMarker ++ t).length ≤ n →
      ¬ answerMarker <:+: t →
      (splitOnCL answerMarker (u ++ answerMarker ++ t)).getLastD [] = t := by
  have hsep : answerMarker ≠ [] := by decide
  have h7 : answerMarker.length = 7 := by decide
  intro n
  induction n with
  | zero =>
    intro u t hlen _
    exfalso
    simp only [List.length_append] at hlen
    omega
  | succ n ih =>
    intro u t hlen hnot
    by_cases hp : answerMarker <+: (u ++ answerMarker ++ t)
    · rw [splitOnCL_prefix_step hsep _ hp, List.getLastD_cons]
      by_cases hu : u = []
      · subst hu
        have hdrop : (([] : List Char) ++ answerMarker ++ t).drop answerMarker.length = t := by
          simp [List.drop_left]
        rw [hdrop, splitOnCL_single hsep t hnot]
        rfl
      · by_cases hlen7 : answerMarker.length ≤ u.length
        · have hdrop : ((u ++ answerMarker ++ t)).drop answerMarker.length =
              (u.drop answerMarker.length) ++ answerMarker ++ t := by
            rw [List.append_assoc, List.drop_append_of_le_length hlen7, List.append_assoc]
          rw [hdrop]
          refine ih (u.drop answerMarker.length) t ?_ hnot
          simp only [List.length_append, List.length_drop] at hlen ⊢
          omega
        · exfalso
          have hu_pos : 0 < u.length := List.length_pos.mpr hu
          have hulen : u.length < answerMarker.length := Nat.lt_of_not_le hlen7
          have hu_pref_s : u <+: (u ++ answerMarker ++ t) :=
            ⟨answerMarker ++ t, by rw [List.append_assoc]⟩
          have hu_pref_M : u <+: answerMarker :=
            List.prefix_of_prefix_length_le hu_pref_s hp (Nat.le_of_lt hulen)
          obtain ⟨w, hw⟩ := hu_pref_M
          obtain ⟨r, hr⟩ := hp
          have h1 : u ++ (w ++ r) = u ++ (answerMarker ++ t) := by
            rw [← List.append_assoc, hw, hr, List.append_assoc]
          have hwr : w ++ r = answerMarker ++ t := List.append_cancel_left h1
          have hwlen : w.length ≤ answerMarker.length := by
            have hl := congrArg List.length hw
            simp only [List.length_append] at hl
            omega
          have hw_pref_M : w <+: answerMarker := by
            have hpa := List.prefix_append answerMarker t
            exact List.prefix_of_prefix_length_le ⟨r, hwr⟩ hpa hwlen
          have hwdrop : answerMarker.drop u.length = w := by
            rw [← hw]
            exact List.drop_left u w
          refine answerMarker_borderfree u.length hulen hu_pos ?_
          rw [hwdrop]
          exact hw_pref_M
    · cases u with
      | nil =>
        exfalso
        refine hp ⟨t, ?_⟩
        simp
      | cons d u2 =>
        have hs_eq : (d :: u2) ++ answerMarker ++ t = d :: (u2 ++ answerMarker ++ t) := by
          simp
        rw [hs_eq] at hp ⊢
        have hnp : ¬ (answerMarker ≠ [] ∧ answerMarker <+: d :: (u2 ++ answerMarker ++ t)) :=
          fun hpair => hp hpair.2
        rw [splitOnCL_cons, if_neg hnp]
        have h2 : (splitOnCL answerMarker (u2 ++ answerMarker ++ t)).getLastD [] = t := by
          refine ih u2 t ?_ hnot
          rw [hs_eq] at hlen
          simp only [List.length_cons] at hlen
          omega
        have hge := splitOnCL_two_le hsep (u2 ++ answerMarker ++ t) ⟨u2, t, rfl⟩
        rcases hsp : splitOnCL answerMarker (u2 ++ answerMarker ++ t) with _ | ⟨p, rest⟩
        · exact absurd hsp (splitOnCL_ne_nil _ _)
        · rw [hsp] at h2 hge
          have hrest : rest ≠ [] := by
            simp only [List.length_cons] at hge
            intro hre
            subst hre
            simp at hge
          rw [List.getLastD_cons] at h2 ⊢
          rw [getLastD_irrel hrest (d :: p) p]
          exact h2

/-- If the text has the form u ++ Answer: ++ t with no marker inside t, the
extraction keeps the stripped t, the text after the last occurrence. -/
theorem extract_answer_after_last (u t : List Char) (h : ¬ answerMarker <:+: t) :
    extract_answer (u ++ answerMarker ++ t) = pyStrip t := by
  have hin : answerMarker <:+: (u ++ answerMarker ++ t) := ⟨u, t, rfl⟩
  unfold extract_answer
  rw [if_pos hin,
    splitOnCL_getLastD_after_last (u ++ answerMarker ++ t).length u t (Nat.le_refl _) h]

/-- Without the marker the extraction returns the text unchanged. -/
theorem extract_answer_no_marker (s : List Char) (h : ¬ answerMarker <:+: s) :
    extract_answer s = s := by
  unfold extract_answer
  rw [if_neg h]

/-- Claim C7: with a loaded pair and all internal steps succeeding, if the
decoded text contains the marker Answer:, generate_response returns the
whitespace-trimmed text after the last occurrence of the marker; if the
decoded text does not contain the marker, it is returned unchanged. -/
theorem generate_response_answer_extraction (env : GenEnv) (s : GlobalState)
    (question decoded : List Char) (hm : s.model ≠ none) (ht : s.tokenizer ≠ none)
    (h1 : env.tokenize (build_prompt question) = Except.ok ())
    (h2 : env.toDevice = Except.ok ()) (h3 : env.generate = Except.ok ())
    (h4 : env.decode = Except.ok decoded) :
    (∀ u t : List Char, decoded = u ++ answerMarker ++ t → ¬ answerMarker <:+: t →
      (generate_response env s question).1 = pyStrip t) ∧
    (¬ answerMarker <:+: decoded → (generate_response env s question).1 = decoded) := by
  have hguard : ¬ (s.model = none ∨ s.tokenizer = none) := by
    intro hor
    rcases hor with h | h
    · exact hm h
    · exact ht h
  have hgen : gen_try env question =
      (Except.ok (extract_answer decoded),
       [GenOp.tokenize, GenOp.toDevice, GenOp.generate, GenOp.decode]) := by
    simp only [gen_try, h1, h2, h3, h4]
  have hval : (generate_response env s question).1 = extract_answer decoded := by
    unfold generate_response
    rw [if_neg hguard, hgen]
  constructor
  · intro u t hdec hnt
    rw [hval, hdec]
    exact extract_answer_after_last u t hnt
  · intro hno
    rw [hval]
    exact extract_answer_no_marker decoded hno

/-- A generation environment whose decoded output contains two markers. -/
def genEnvWithAnswer : GenEnv :=
  ⟨fun _ => Except.ok (), Except.ok (), Except.ok (),
   Except.ok ("Question: hours? Answer: draft Answer:  Offices open at 9am.  ".toList)⟩

/-- Claim C7 witness: the returned text is the stripped segment after the
last marker of the decoded output. -/
theorem generate_response_answer_extraction_witness :
    (generate_response genEnvWithAnswer loadedGlobals ("hours?".toList)).1 =
      pyStrip ("  Offices open at 9am.  ".toList) := by
  have h := generate_response_answer_extraction genEnvWithAnswer loadedGlobals
    ("hours?".toList) ("Question: hours? Answer: draft Answer:  Offices open at 9am.  ".toList)
    (by decide) (by decide) rfl rfl rfl rfl
  exact h.1 ("Question: hours? Answer: draft ".toList) ("  Offices open at 9am.  ".toList)
    (by decide) (by decide)

/-! Claims C2, C3, C4, C8: the model resolver. -/

/-- Claim C2: whenever the availability query returned and the preferred-model
acquisition fails at any of its steps, initialize_model enters the fallback
acquisition exactly once and raises nothing; and if the fallback acquisition
also fails at any of its steps, it returns False. -/
theorem initialize_model_fallback_once (env : InitEnv) (s : GlobalState) (c : Bool)
    (hc : env.cudaAvail = Except.ok c)
    (hpref : env.prefTok = Except.error () ∨ env.prefModel = Except.error () ∨
      (c = false ∧ env.prefTo = Except.error ())) :
    (initialize_model env s).fallbackAttempts = 1 ∧
    (initialize_model env s).outcome ≠ Except.error () ∧
    ((env.fbTok = Except.error () ∨ env.fbModel = Except.error () ∨
        env.fbTo = Except.error ()) →
      (initialize_model env s).outcome = Except.ok false) := by
  rcases exceptUU env.prefTok with h1 | h1 <;>
    rcases exceptUU env.prefModel with h2 | h2 <;>
    rcases exceptUU env.prefTo with h3 | h3 <;>
    rcases exceptUU env.fbTok with h4 | h4 <;>
    rcases exceptUU env.fbModel with h5 | h5 <;>
    rcases exceptUU env.fbTo with h6 | h6 <;>
    cases c <;>
    simp_all [initialize_model, fallback_load]

/-- An environment whose preferred tokenizer load fails and whose fallback
acquisition fails at its last step. -/
def envPrefTokFbToFail : InitEnv :=
  ⟨Except.ok false, Except.error (), Except.ok (), Except.ok (),
   Except.ok (), Except.ok (), Except.error ()⟩

/-- Claim C2 witness: with the preferred tokenizer failing and the fallback
device-placement failing, one fallback attempt happens and False returns. -/
theorem initialize_model_fallback_once_witness :
    (initialize_model envPrefTokFbToFail initialGlobals).fallbackAttempts = 1 ∧
    (initialize_model envPrefTokFbToFail initialGlobals).outcome = Except.ok false := by
  have h := initialize_model_fallback_once envPrefTokFbToFail initialGlobals false
    rfl (Or.inl rfl)
  exact ⟨h.1, h.2.2 (Or.inr (Or.inr rfl))⟩

/-- An environment on the accelerated path where the preferred tokenizer
fails, the fallback tokenizer and model load, but moving the fallback model
to the device fails. -/
def envFalseButLoaded : InitEnv :=
  ⟨Except.ok true, Except.error (), Except.ok (), Except.ok (),
   Except.ok (), Except.ok (), Except.error ()⟩

/-- Claim C3 counterexample: initialize_model returns False although the
resulting state is not Absent — the fallback tokenizer and the fallback
model are both loaded in the globals (only the final device placement
failed), refuting the claimed: returns false if and only if the resulting
model state is Absent. -/
theorem initialize_model_false_yet_loaded :
    (initialize_model envFalseButLoaded initialGlobals).outcome = Except.ok false ∧
    (initialize_model envFalseButLoaded initialGlobals).state.tokenizer =
      some ModelOrigin.fallback ∧
    (initialize_model envFalseButLoaded initialGlobals).state.model =
      some ModelOrigin.fallback :=
  ⟨rfl, rfl, rfl⟩

/-- Claim C3 (amended): initialize_model returns True exactly when one
acquisition path ran to completion — preferred (tokenizer, model, and on the
cpu path the device move) or fallback (tokenizer, model, device move) — and
then tokenizer and model are both set; when it returns False no complete
acquisition happened, but the globals may still hold a loaded pair from a
partially failed attempt, so False does not imply the Absent state. -/
theorem initialize_model_true_iff_complete (env : InitEnv) (s : GlobalState) (c : Bool)
    (hc : env.cudaAvail = Except.ok c) :
    ((initialize_model env s).outcome = Except.ok true ↔
      ((env.prefTok = Except.ok () ∧ env.prefModel = Except.ok () ∧
         (c = false → env.prefTo = Except.ok ())) ∨
       (env.fbTok = Except.ok () ∧ env.fbModel = Except.ok () ∧
         env.fbTo = Except.ok ()))) ∧
    ((initialize_model env s).outcome = Except.ok true →
      (initialize_model env s).state.tokenizer ≠ none ∧
      (initialize_model env s).state.model ≠ none) := by
  rcases exceptUU env.prefTok with h1 | h1 <;>
    rcases exceptUU env.prefModel with h2 | h2 <;>
    rcases exceptUU env.prefTo with h3 | h3 <;>
    rcases exceptUU env.fbTok with h4 | h4 <;>
    rcases exceptUU env.fbModel with h5 | h5 <;>
    rcases exceptUU env.fbTo with h6 | h6 <;>
    cases c <;>
    simp_all [initialize_model, fallback_load]

/-- Claim C3 (amended) witness: when every load succeeds on the cpu path the
call returns True and both globals are set. -/
theorem initialize_model_true_iff_complete_witness :
    (initialize_model
        ⟨Except.ok false, Except.ok (), Except.ok (), Except.ok (),
         Except.ok (), Except.ok (), Except.ok ()⟩ initialGlobals).outcome =
      Except.ok true := by
  have h := initialize_model_true_iff_complete
    ⟨Except.ok false, Except.ok (), Except.ok (), Except.ok (),
     Except.ok (), Except.ok (), Except.ok ()⟩ initialGlobals false rfl
  exact h.1.mpr (Or.inl ⟨rfl, rfl, fun _ => rfl⟩)

/-- An environment on the cpu path where the preferred tokenizer and model
load, the preferred device move fails, the fallback tokenizer loads, and the
fallback model load fails. -/
def envMixedPair : InitEnv :=
  ⟨Except.ok false, Except.ok (), Except.ok (), Except.error (),
   Except.ok (), Except.error (), Except.ok ()⟩

/-- Claim C4 counterexample: after a run of initialize_model under one
combination of step outcomes, the globals hold the fallback tokenizer
together with the preferred model — both set, loaded from different model
paths — refuting the claimed never-a-mix invariant. -/
theorem initialize_model_mixed_pair :
    (initialize_model envMixedPair initialGlobals).state.tokenizer =
      some ModelOrigin.fallback ∧
    (initialize_model envMixedPair initialGlobals).state.model =
      some ModelOrigin.preferred :=
  ⟨rfl, rfl⟩

/-- Claim C4 (amended): whenever initialize_model returns True, the tokenizer
and the model globals are set and come from the same model path; after a
False return the pair may be a mix of the two paths. -/
theorem initialize_model_success_pair_consistent (env : InitEnv) (s : GlobalState)
    (h : (initialize_model env s).outcome = Except.ok true) :
    ∃ o : ModelOrigin, (initialize_model env s).state.tokenizer = some o ∧
      (initialize_model env s).state.model = some o := by
  rcases exceptUB env.cudaAvail with hc | hc | hc <;>
    rcases exceptUU env.prefTok with h1 | h1 <;>
    rcases exceptUU env.prefModel with h2 | h2 <;>
    rcases exceptUU env.prefTo with h3 | h3 <;>
    rcases exceptUU env.fbTok with h4 | h4 <;>
    rcases exceptUU env.fbModel with h5 | h5 <;>
    rcases exceptUU env.fbTo with h6 | h6 <;>
    simp_all [initialize_model, fallback_load]

/-- An environment in which every load succeeds on the cpu path. -/
def envAllOkCpu : InitEnv :=
  ⟨Except.ok false, Except.ok (), Except.ok (), Except.ok (),
   Except.ok (), Except.ok (), Except.ok ()⟩

/-- Claim C4 (amended) witness: a fully successful run yields a consistent
loaded pair. -/
theorem initialize_model_success_pair_consistent_witness :
    ∃ o : ModelOrigin,
      (initialize_model envAllOkCpu initialGlobals).state.tokenizer = some o ∧
      (initialize_model envAllOkCpu initialGlobals).state.model = some o :=
  initialize_model_success_pair_consistent envAllOkCpu initialGlobals rfl

/-- An environment whose availability query raises. -/
def envCudaQueryRaises : InitEnv :=
  ⟨Except.error (), Except.ok (), Except.ok (), Except.ok (),
   Except.ok (), Except.ok (), Except.ok ()⟩

/-- Claim C8 counterexample: when the availability query raises,
initialize_model propagates the exception (it does not proceed) and selects
no device, refuting the claimed degrade-to-cpu inside the resolver. -/
theorem cuda_query_failure_propagates :
    (initialize_model envCudaQueryRaises initialGlobals).outcome = Except.error () ∧
    (initialize_model envCudaQueryRaises initialGlobals).state.device = none :=
  ⟨rfl, rfl⟩

/-- Claim C8 (amended): a failure of the availability query propagates out of
initialize_model with the globals untouched — no cpu selection happens in
the resolver — and the __main__ startup block catches it, so the process
continues (with no device and no model loaded) instead of crashing. -/
theorem cuda_query_failure_caught_at_startup (env : InitEnv) (s : GlobalState)
    (h : env.cudaAvail = Except.error ()) :
    (initialize_model env s).outcome = Except.error () ∧
    (initialize_model env s).state = s ∧
    main_startup env s = s := by
  refine ⟨?_, ?_, ?_⟩ <;> simp [initialize_model, main_startup, h]

/-- Claim C8 (amended) witness: the concrete raising environment leaves the
initial globals untouched and startup continues. -/
theorem cuda_query_failure_caught_at_startup_witness :
    (initialize_model envCudaQueryRaises initialGlobals).outcome = Except.error () ∧
    (initialize_model envCudaQueryRaises initialGlobals).state = initialGlobals ∧
    main_startup envCudaQueryRaises initialGlobals = initialGlobals :=
  cuda_query_failure_caught_at_startup envCudaQueryRaises initialGlobals rfl

end CitizenAI
